import Mathlib

/-!
Shallow embedding of `src/ophase.rs` from the kitmatheinfo-bot repository.

The file models the invite-attribution engine and the password-gated role
grant workflow:

* `get_ophase_invite_count` — startup initialisation of the invite-use
  counter from the ready snapshot (lines 61-85 of the source).
* `handle_new_guild_member` — the passive join path that reconciles the
  shared invite-use counter and grants the role on a positive delta
  (lines 87-127).
* `ersti` — the `/ophase` slash command: precondition checks, password
  modal, case-insensitive comparison, role grant and replies
  (lines 131-190).

Platform calls (invite fetches, channel fetches, the modal, role grants,
reply sends) are passed in as explicit `Except`/`Option` values; the
side effects the command performs are recorded in an explicit trace so
that ordering and frame properties can be stated.  Rust panics
(`unwrap`, `expect`, `panic!`) are modelled as a distinct `panicked`
outcome, separate from recoverable `Err` returns.
-/

/-- A guild invite as exposed by the platform: `{code, uses}`. -/
structure Invite where
  code : String
  uses : Nat
deriving Repr, DecidableEq

/-- The `OPhase` configuration block from `config.rs`. -/
structure OPhase where
  invite_code : String
  role_name : String
  channel_name : String
  password : String
deriving Repr, DecidableEq

/-- A guild role: display name and id. -/
structure Role where
  name : String
  id : Nat
deriving Repr, DecidableEq

/-- A guild channel: display name and id. -/
structure Channel where
  name : String
  id : Nat
deriving Repr, DecidableEq

/-- A guild as seen through `ctx.guild()`: the cached role list. -/
structure Guild where
  roles : List Role
deriving Repr, DecidableEq

/-- `invites.into_iter().find(|invite| invite.code == code)`. -/
def find_invite (invites : List Invite) (code : String) : Option Invite :=
  invites.find? (fun invite => invite.code == code)

/-- `get_role_id` (source lines 39-45): resolve the configured role by
exact name in the guild's role list, or fail with the German error
message. -/
def get_role_id (roles : List Role) (config : OPhase) : Except String Nat :=
  match roles.find? (fun role => role.name == config.role_name) with
  | none => .error "Keine Rolle mit dem Namen der O-Phasen-Rolle gefunden"
  | some role => .ok role.id

/-- Outcome of one run of the join handler.  `panicked` models a Rust
panic (`unwrap` on `None`), which aborts the task rather than returning
an `Err`. -/
inductive HandleOutcome where
  | ok : HandleOutcome
  | err : String → HandleOutcome
  | panicked : HandleOutcome
deriving Repr, DecidableEq

/-- Result record for `handle_new_guild_member`: the outcome, the
counter state after the call, the `previous` value read out of the
counter (the shadowed local `ophase_invite_uses`), and whether the role
was granted to the new member. -/
structure HandleResult where
  outcome : HandleOutcome
  counter : Option Nat
  previous_read : Option Nat
  granted : Bool
deriving Repr, DecidableEq

/-- `handle_new_guild_member` (source lines 87-127).

Platform interactions are parameters: `fetch` is the result of
`guild.invites(...)`, `roles_fetch` the role list obtained through
`guild.to_partial_guild(...)`, `add_result` the result of
`new_member.add_role(...)`.  `counter` is the shared
`Arc<Mutex<Option<u64>>>` value at lock acquisition.

The source reads the counter with `count.as_mut().unwrap()`: if the
counter is still `None` this panics inside the critical section, which
is modelled by the `panicked` outcome with the counter left unchanged. -/
def handle_new_guild_member (config : OPhase)
    (fetch : Except String (List Invite))
    (roles_fetch : Except String (List Role))
    (add_result : Except String Unit)
    (counter : Option Nat) : HandleResult :=
  match fetch with
  | .error e => ⟨.err e, counter, none, false⟩
  | .ok guild_invites =>
    match find_invite guild_invites config.invite_code with
    | none => ⟨.ok, counter, none, false⟩
    | some invite =>
      let new_invite_uses := invite.uses
      match counter with
      | none => ⟨.panicked, none, none, false⟩
      | some previous =>
        if new_invite_uses > previous then
          match roles_fetch with
          | .error e => ⟨.err e, some new_invite_uses, some previous, false⟩
          | .ok roles =>
            match get_role_id roles config with
            | .error e => ⟨.err e, some new_invite_uses, some previous, false⟩
            | .ok _role_id =>
              match add_result with
              | .error e => ⟨.err e, some new_invite_uses, some previous, false⟩
              | .ok _ => ⟨.ok, some new_invite_uses, some previous, true⟩
        else ⟨.ok, some new_invite_uses, some previous, false⟩

/-- The inlined `read_and_update` of the tracker (source lines 108-114):
on an initialised counter, atomically swap in the new count and return
the previous value; on an uninitialised counter the source panics, so no
previous value is produced and the state is unchanged. -/
def read_and_update (counter : Option Nat) (new_count : Nat) :
    Option Nat × Option Nat :=
  match counter with
  | none => (none, none)
  | some previous => (some previous, some new_count)

/-- Run a finite sequence of `read_and_update` calls in lock order,
collecting the `previous` value each call returns, together with the
final counter state. -/
def run_reads (counter : Option Nat) : List Nat → List (Option Nat) × Option Nat
  | [] => ([], counter)
  | a :: rest =>
    let step := read_and_update counter a
    let tail := run_reads step.2 rest
    (step.1 :: tail.1, tail.2)

/-- Result of startup initialisation: either a value (the Rust
`Option<u64>` return) or a panic. -/
inductive InitResult where
  | value : Option Nat → InitResult
  | panicked : InitResult
deriving Repr, DecidableEq

/-- The guild scan loop of `get_ophase_invite_count` (source lines
63-77): for each guild in order, fetch its invites — panicking if the
fetch fails (`unwrap_or_else(... panic!)`) — and stop at the first guild
whose list contains the configured code; the `expect` after the loop
panics when no guild matched. -/
def scan_guilds (code : String) : List (Except String (List Invite)) → InitResult
  | [] => .panicked
  | g :: rest =>
    match g with
    | .error _ => .panicked
    | .ok invites =>
      match find_invite invites code with
      | some invite => .value (some invite.uses)
      | none => scan_guilds code rest

/-- `get_ophase_invite_count` (source lines 61-85): `None` when the
O-Phase feature is not configured, otherwise scan the ready snapshot's
guilds for the configured invite code.  `guilds` carries, per guild in
snapshot order, the result its invite fetch would produce. -/
def get_ophase_invite_count (config : Option OPhase)
    (guilds : List (Except String (List Invite))) : InitResult :=
  match config with
  | none => .value none
  | some cfg => scan_guilds cfg.invite_code guilds

/-- Rust's `str::to_lowercase`, restricted to the ASCII range: lower-case
every character of the string. -/
def to_lowercase (s : String) : String := String.mk (s.data.map Char.toLower)

/-- The password comparison on source line 155: case-insensitive
equality, both sides lower-cased. -/
def password_matches (submitted expected : String) : Bool :=
  to_lowercase submitted == to_lowercase expected

/-- An embed-reply as built in the command: ephemeral flag, RGB accent
color, title and description. -/
structure Reply where
  ephemeral : Bool
  color : Nat × Nat × Nat
  title : String
  description : String
deriving Repr, DecidableEq

/-- The wrong-password reply (source lines 163-168). -/
def failure_reply : Reply :=
  { ephemeral := true
    color := (255, 99, 71)
    title := "Falsches Gruppen-Passwort"
    description := "Sorry, das ist nicht das korrekte Gruppen-Passwort. Frage bitte noch einmal nach :)" }

/-- The success reply (source lines 179-186), referencing the resolved
channel in its description. -/
def success_reply (channel_id : Nat) : Reply :=
  { ephemeral := true
    color := (25, 177, 241)
    title := "Willkommen in der kitmatheinfo.de O-Phase!"
    description := "Wir sehen uns in <#" ++ toString channel_id ++ "> :)" }

/-- Externally visible actions the code can perform, in order.
`counterSwap` is the tracker's read-modify-write; the command path never
emits it. -/
inductive Effect where
  | fetchGuildInvites : Effect
  | fetchPartialGuild : Effect
  | counterSwap : Nat → Effect
  | fetchChannels : Effect
  | openModal : Effect
  | addRole : Nat → Nat → Effect
  | sendReply : Reply → Effect
deriving Repr, DecidableEq

/-- Semantics of a trace on the shared invite-use counter: only
`counterSwap` touches it. -/
def apply_effect (counter : Option Nat) : Effect → Option Nat
  | .counterSwap n => some n
  | _ => counter

/-- Fold a whole trace over the counter. -/
def apply_effects (counter : Option Nat) (effects : List Effect) : Option Nat :=
  effects.foldl apply_effect counter

/-- The inputs of one `/ophase` command invocation.  Platform calls are
explicit values: `author_member` is `ctx.author_member()` (`none` in
DMs), `o_phase` the optional config block, `guild` the cached
`ctx.guild()`, `channels_fetch` the result of `guild.channels(ctx)`,
`modal_result` the result of `PasswordResponse::execute` (`Ok none` on
dismissal), `add_role_result` and `send_result` the results of the
role-grant and reply network calls. -/
structure ErstiCtx where
  author_member : Option Nat
  o_phase : Option OPhase
  guild : Option Guild
  channels_fetch : Except String (List (Nat × Channel))
  modal_result : Except String (Option String)
  add_role_result : Except String Unit
  send_result : Except String Unit
deriving Repr

/-- `get_channel_id` (source lines 47-59): resolve `ctx.guild()`, fetch
its channels (a network call), and find the configured channel by exact
name.  Returns the resolved id together with the effects performed. -/
def get_channel_id (ctx : ErstiCtx) (config : OPhase) :
    Except String Nat × List Effect :=
  match ctx.guild with
  | none => (.error "Dieser Befehl kann nur in einem Server ausgeführt werden.", [])
  | some _guild =>
    match ctx.channels_fetch with
    | .error e => (.error e, [.fetchChannels])
    | .ok channels =>
      match channels.find? (fun c => c.2.name == config.channel_name) with
      | none => (.error "Kanal für die O-Phase nicht gefunden", [.fetchChannels])
      | some c => (.ok c.1, [.fetchChannels])

/-- The `/ophase` command `ersti` (source lines 131-190), returning the
command result and the trace of effects performed, in order. -/
def ersti (ctx : ErstiCtx) : Except String Unit × List Effect :=
  match ctx.author_member with
  | none => (.error "Dieser Befehl kann nicht in DMs ausgeführt werden", [])
  | some member =>
    match ctx.o_phase with
    | none => (.error "O-Phase Funktionalität ist nicht konfiguriert", [])
    | some config =>
      match ctx.guild with
      | none => (.error "Dieser Befehl kann nur in einem Server ausgeführt werden.", [])
      | some guild =>
        match get_role_id guild.roles config with
        | .error e => (.error e, [])
        | .ok role_id =>
          match (get_channel_id ctx config).1 with
          | .error e => (.error e, (get_channel_id ctx config).2)
          | .ok channel_id =>
            match ctx.modal_result with
            | .error e => (.error e, (get_channel_id ctx config).2 ++ [.openModal])
            | .ok none => (.ok (), (get_channel_id ctx config).2 ++ [.openModal])
            | .ok (some password) =>
              if password_matches password config.password = false then
                match ctx.send_result with
                | .error e =>
                  (.error e, (get_channel_id ctx config).2
                    ++ [.openModal, .sendReply failure_reply])
                | .ok _ =>
                  (.ok (), (get_channel_id ctx config).2
                    ++ [.openModal, .sendReply failure_reply])
              else
                match ctx.add_role_result with
                | .error e =>
                  (.error e, (get_channel_id ctx config).2
                    ++ [.openModal, .addRole member role_id])
                | .ok _ =>
                  match ctx.send_result with
                  | .error e =>
                    (.error e, (get_channel_id ctx config).2
                      ++ [.openModal, .addRole member role_id,
                        .sendReply (success_reply channel_id)])
                  | .ok _ =>
                    (.ok (), (get_channel_id ctx config).2
                      ++ [.openModal, .addRole member role_id,
                        .sendReply (success_reply channel_id)])

/-! ## Concrete fixtures used by witnesses and counterexamples -/

/-- A concrete configuration block. -/
def cfg0 : OPhase := ⟨"ophase2024", "O-Phase", "ophase", "quack123"⟩

/-- A concrete tracked invite with 5 uses. -/
def inv0 : Invite := ⟨"ophase2024", 5⟩

/-- The same invite after one more use. -/
def inv1 : Invite := ⟨"ophase2024", 6⟩

/-- An invite with an unrelated code. -/
def other_invite : Invite := ⟨"welcome", 3⟩

/-- A concrete guild role matching `cfg0.role_name`. -/
def role0 : Role := ⟨"O-Phase", 42⟩

/-- A concrete channel matching `cfg0.channel_name`. -/
def chan0 : Channel := ⟨"ophase", 77⟩

/-- A command context for an invocation from a DM. -/
def dm_ctx : ErstiCtx :=
  ⟨none, some cfg0, none, .ok [(77, chan0)], .ok (some "quack123"), .ok (), .ok ()⟩

/-- A fully healthy command context, parameterised by the submitted
password. -/
def ok_ctx (pw : String) : ErstiCtx :=
  ⟨some 1, some cfg0, some ⟨[role0]⟩, .ok [(77, chan0)], .ok (some pw), .ok (), .ok ()⟩

/-! ## Claims -/

/-- C1 (counterexample): the claim says that a join handled while the
counter is still uninitialized returns a recoverable error/None.  On the
code, with the tracked invite present, `count.as_mut().unwrap()` panics
instead: at this concrete input the outcome is `panicked` and not an
`err` return. -/
theorem C1_counterexample :
    (handle_new_guild_member cfg0 (.ok [inv0]) (.ok [role0]) (.ok ()) none).outcome
        = HandleOutcome.panicked
    ∧ ¬ ∃ e, (handle_new_guild_member cfg0 (.ok [inv0]) (.ok [role0]) (.ok ()) none).outcome
        = HandleOutcome.err e := by
  refine ⟨by decide, ?_⟩
  rintro ⟨e, h⟩
  rw [show (handle_new_guild_member cfg0 (.ok [inv0]) (.ok [role0]) (.ok ()) none).outcome
      = HandleOutcome.panicked by decide] at h
  exact HandleOutcome.noConfusion h

/-- C1 (amended): if the shared invite-use counter is still
uninitialized (`None`) when the join handler reaches its
read-and-update — i.e. the tracked invite is present in the fetched
list — the handler panics (aborting the task) rather than returning an
error or proceeding; no role is granted and the counter stays
uninitialized. -/
theorem C1_uninitialized_counter_panics (config : OPhase)
    (invs : List Invite) (invite : Invite)
    (roles_fetch : Except String (List Role)) (add_result : Except String Unit)
    (hfind : find_invite invs config.invite_code = some invite) :
    handle_new_guild_member config (.ok invs) roles_fetch add_result none
      = ⟨.panicked, none, none, false⟩ := by
  simp [handle_new_guild_member, hfind]

/-- Witness for C1: the amended theorem instantiated at a concrete
configuration and invite list. -/
theorem C1_uninitialized_counter_panics_witness :
    handle_new_guild_member cfg0 (.ok [inv0]) (.ok [role0]) (.ok ()) none
      = ⟨.panicked, none, none, false⟩ :=
  C1_uninitialized_counter_panics cfg0 [inv0] inv0 (.ok [role0]) (.ok ())
    (by decide)

/-- C2: with the counter initialized to `n` and the tracked invite
present with `m` fetched uses (and the role resolvable and the grant
call succeeding), the join handler reads back `n` as the previous value,
stores `m` into the counter, and grants the role exactly when `m > n`. -/
theorem C2_grant_iff_positive_delta (config : OPhase) (invs : List Invite)
    (invite : Invite) (roles : List Role) (role_id : Nat) (n : Nat)
    (hfind : find_invite invs config.invite_code = some invite)
    (hrole : get_role_id roles config = .ok role_id) :
    (handle_new_guild_member config (.ok invs) (.ok roles) (.ok ()) (some n)).previous_read
        = some n
    ∧ (handle_new_guild_member config (.ok invs) (.ok roles) (.ok ()) (some n)).counter
        = some invite.uses
    ∧ ((handle_new_guild_member config (.ok invs) (.ok roles) (.ok ()) (some n)).granted
        = true ↔ invite.uses > n) := by
  by_cases h : invite.uses > n
  · simp [handle_new_guild_member, hfind, h, hrole]
  · simp [handle_new_guild_member, hfind, h]

/-- Witness for C2: `initialize(5)` then a join observing 6 uses reads
previous 5, stores 6, and grants; the hypotheses hold at the concrete
fixture. -/
theorem C2_grant_iff_positive_delta_witness :
    (handle_new_guild_member cfg0 (.ok [inv1]) (.ok [role0]) (.ok ()) (some 5)).previous_read
        = some 5
    ∧ (handle_new_guild_member cfg0 (.ok [inv1]) (.ok [role0]) (.ok ()) (some 5)).counter
        = some 6
    ∧ ((handle_new_guild_member cfg0 (.ok [inv1]) (.ok [role0]) (.ok ()) (some 5)).granted
        = true ↔ inv1.uses > 5) :=
  C2_grant_iff_positive_delta cfg0 [inv1] inv1 [role0] 42 5 (by decide) rfl

/-- Unfolding of `run_reads` on a cons cell. -/
lemma run_reads_cons (init a : Nat) (rest : List Nat) :
    run_reads (some init) (a :: rest)
      = (some init :: (run_reads (some a) rest).1, (run_reads (some a) rest).2) := by
  simp [run_reads, read_and_update]

/-- C3: over any finite sequence of read-and-update calls on an
initialized counter, the `i`-th call returns as "previous" exactly the
argument of call `i - 1` (the initialize value for the first call), and
the final counter holds the last argument written — the swap loses no
update. -/
theorem C3_sequential_swap_no_lost_updates (init : Nat) (args : List Nat)
    (i : Nat) (hi : i < args.length) :
    (run_reads (some init) args).1[i]? = ((init :: args)[i]?).map some
    ∧ (run_reads (some init) args).2
        = some ((init :: args).getLast (List.cons_ne_nil init args)) := by
  induction args generalizing init i with
  | nil => exact absurd hi (by simp)
  | cons a rest ih =>
    rw [run_reads_cons]
    constructor
    · match i with
      | 0 => simp
      | i + 1 =>
        have hi' : i < rest.length := by simpa using hi
        simpa using (ih a i hi').1
    · match rest with
      | [] => simp [run_reads, List.getLast]
      | b :: rest' =>
        have h := (ih a 0 (by simp)).2
        simpa [List.getLast_cons] using h

/-- Witness for C3: the sequence `initialize(5); read_and_update(7);
read_and_update(8)` returns previous values 5 then 7 and ends at 8. -/
theorem C3_sequential_swap_no_lost_updates_witness :
    ((run_reads (some 5) [7, 8]).1[1]? = (([5, 7, 8] : List Nat)[1]?).map some
      ∧ (run_reads (some 5) [7, 8]).2
          = some (([5, 7, 8] : List Nat).getLast (List.cons_ne_nil 5 [7, 8]))) :=
  C3_sequential_swap_no_lost_updates 5 [7, 8] 1 (by decide)

/-- C4: when the fetched invite list contains no entry with the
configured code, the join handler returns `Ok`, reads no previous value,
grants no role, and leaves the counter exactly as it was. -/
theorem C4_missing_invite_is_noop (config : OPhase) (invs : List Invite)
    (roles_fetch : Except String (List Role)) (add_result : Except String Unit)
    (counter : Option Nat)
    (hfind : find_invite invs config.invite_code = none) :
    handle_new_guild_member config (.ok invs) roles_fetch add_result counter
      = ⟨.ok, counter, none, false⟩ := by
  simp [handle_new_guild_member, hfind]

/-- Witness for C4: a fetched list holding only an unrelated code leaves
the counter at `some 5` and grants nothing. -/
theorem C4_missing_invite_is_noop_witness :
    handle_new_guild_member cfg0 (.ok [other_invite]) (.ok [role0]) (.ok ()) (some 5)
      = ⟨.ok, some 5, none, false⟩ :=
  C4_missing_invite_is_noop cfg0 [other_invite] (.ok [role0]) (.ok ()) (some 5)
    (by decide)

/-- C5: the password gate succeeds exactly on case-insensitive equality:
`password_matches` holds iff the two strings agree after lower-casing,
and — in a healthy command context — the role grant is performed iff the
submitted password lower-cases to the configured one. -/
theorem C5_case_insensitive_password (ctx : ErstiCtx) (m : Nat)
    (config : OPhase) (guild : Guild) (role_id : Nat)
    (channels : List (Nat × Channel)) (c : Nat × Channel) (pw : String)
    (hm : ctx.author_member = some m)
    (hc : ctx.o_phase = some config)
    (hg : ctx.guild = some guild)
    (hrole : get_role_id guild.roles config = .ok role_id)
    (hch : ctx.channels_fetch = .ok channels)
    (hfind : channels.find? (fun p => p.2.name == config.channel_name) = some c)
    (hmodal : ctx.modal_result = .ok (some pw))
    (hadd : ctx.add_role_result = .ok ())
    (hsend : ctx.send_result = .ok ()) :
    (password_matches pw config.password = true
        ↔ to_lowercase pw = to_lowercase config.password)
    ∧ ((∃ a b, Effect.addRole a b ∈ (ersti ctx).2)
        ↔ to_lowercase pw = to_lowercase config.password) := by
  have hiff : password_matches pw config.password = true
      ↔ to_lowercase pw = to_lowercase config.password := by
    simp [password_matches]
  refine ⟨hiff, ?_⟩
  by_cases hpm : password_matches pw config.password = true
  · have htrace : ersti ctx = (.ok (), [.fetchChannels, .openModal,
        .addRole m role_id, .sendReply (success_reply c.1)]) := by
      simp [ersti, get_channel_id, hm, hc, hg, hrole, hch, hfind, hmodal, hpm,
        hadd, hsend]
    rw [htrace]
    constructor
    · intro _; exact hiff.mp hpm
    · intro _; exact ⟨m, role_id, by simp⟩
  · have hpm' : password_matches pw config.password = false := by
      simpa using hpm
    have htrace : ersti ctx = (.ok (), [.fetchChannels, .openModal,
        .sendReply failure_reply]) := by
      simp [ersti, get_channel_id, hm, hc, hg, hrole, hch, hfind, hmodal, hpm',
        hsend]
    rw [htrace]
    constructor
    · rintro ⟨a, b, hab⟩
      simp at hab
    · intro h
      exact absurd (hiff.mpr h) hpm

/-- Witness for C5: submitted `"QuAcK123"` against configured
`"quack123"` matches and the grant effect is emitted. -/
theorem C5_case_insensitive_password_witness :
    (password_matches "QuAcK123" cfg0.password = true
        ↔ to_lowercase "QuAcK123" = to_lowercase cfg0.password)
    ∧ ((∃ a b, Effect.addRole a b ∈ (ersti (ok_ctx "QuAcK123")).2)
        ↔ to_lowercase "QuAcK123" = to_lowercase cfg0.password) :=
  C5_case_insensitive_password (ok_ctx "QuAcK123") 1 cfg0 ⟨[role0]⟩ 42
    [(77, chan0)] (77, chan0) "QuAcK123" rfl rfl rfl rfl rfl (by decide) rfl rfl rfl

/-- C6: the command checks its preconditions in order — guild context
(DM check), feature configured, guild resolvable, role resolvable by
name, channel resolvable by name — each failing fast with its own
distinct error and, up to the channel lookup, with no network effect
performed; in particular a DM invocation fails immediately with the
not-in-DMs error and an empty effect trace. -/
theorem C6_precondition_order (ctx : ErstiCtx) :
    (ctx.author_member = none →
      ersti ctx = (.error "Dieser Befehl kann nicht in DMs ausgeführt werden", []))
    ∧ (∀ m, ctx.author_member = some m → ctx.o_phase = none →
      ersti ctx = (.error "O-Phase Funktionalität ist nicht konfiguriert", []))
    ∧ (∀ m config, ctx.author_member = some m → ctx.o_phase = some config →
      ctx.guild = none →
      ersti ctx = (.error "Dieser Befehl kann nur in einem Server ausgeführt werden.", []))
    ∧ (∀ m config guild, ctx.author_member = some m → ctx.o_phase = some config →
      ctx.guild = some guild →
      guild.roles.find? (fun role => role.name == config.role_name) = none →
      ersti ctx = (.error "Keine Rolle mit dem Namen der O-Phasen-Rolle gefunden", []))
    ∧ (∀ m config guild role_id channels,
      ctx.author_member = some m → ctx.o_phase = some config →
      ctx.guild = some guild → get_role_id guild.roles config = .ok role_id →
      ctx.channels_fetch = .ok channels →
      channels.find? (fun p => p.2.name == config.channel_name) = none →
      ersti ctx = (.error "Kanal für die O-Phase nicht gefunden", [.fetchChannels]))
    ∧ (["Dieser Befehl kann nicht in DMs ausgeführt werden",
        "O-Phase Funktionalität ist nicht konfiguriert",
        "Dieser Befehl kann nur in einem Server ausgeführt werden.",
        "Keine Rolle mit dem Namen der O-Phasen-Rolle gefunden",
        "Kanal für die O-Phase nicht gefunden"] : List String).Nodup := by
  refine ⟨?_, ?_, ?_, ?_, ?_, by decide⟩
  · intro h
    simp [ersti, h]
  · intro m hm h
    simp [ersti, hm, h]
  · intro m config hm hc h
    simp [ersti, hm, hc, h]
  · intro m config guild hm hc hg h
    simp [ersti, hm, hc, hg, get_role_id, h]
  · intro m config guild role_id channels hm hc hg hrole hch h
    simp [ersti, get_channel_id, hm, hc, hg, hrole, hch, h]

/-- Witness for C6: the concrete DM invocation fails with the
not-in-DMs error and performs no effect. -/
theorem C6_precondition_order_witness :
    ersti dm_ctx
      = (.error "Dieser Befehl kann nicht in DMs ausgeführt werden", []) :=
  (C6_precondition_order dm_ctx).1 rfl

/-- C7: a submitted password that mismatches case-insensitively makes
the command send the (ephemeral) failure notice, grant no role, and
return `Ok` — the mismatch is not escalated as an error. -/
theorem C7_wrong_password_friendly (ctx : ErstiCtx) (m : Nat)
    (config : OPhase) (guild : Guild) (role_id : Nat)
    (channels : List (Nat × Channel)) (c : Nat × Channel) (pw : String)
    (hm : ctx.author_member = some m)
    (hc : ctx.o_phase = some config)
    (hg : ctx.guild = some guild)
    (hrole : get_role_id guild.roles config = .ok role_id)
    (hch : ctx.channels_fetch = .ok channels)
    (hfind : channels.find? (fun p => p.2.name == config.channel_name) = some c)
    (hmodal : ctx.modal_result = .ok (some pw))
    (hmatch : password_matches pw config.password = false)
    (hsend : ctx.send_result = .ok ()) :
    ersti ctx = (.ok (), [.fetchChannels, .openModal, .sendReply failure_reply])
    ∧ (∀ a b, Effect.addRole a b ∉ (ersti ctx).2)
    ∧ failure_reply.ephemeral = true := by
  have hmain : ersti ctx
      = (.ok (), [.fetchChannels, .openModal, .sendReply failure_reply]) := by
    simp [ersti, get_channel_id, hm, hc, hg, hrole, hch, hfind, hmodal, hmatch,
      hsend]
  refine ⟨hmain, ?_, rfl⟩
  intro a b
  rw [hmain]
  simp

/-- Witness for C7: submitting `"wrongpassword"` against configured
`"quack123"` yields the friendly failure notice and no grant. -/
theorem C7_wrong_password_friendly_witness :
    ersti (ok_ctx "wrongpassword")
        = (.ok (), [.fetchChannels, .openModal, .sendReply failure_reply])
    ∧ (∀ a b, Effect.addRole a b ∉ (ersti (ok_ctx "wrongpassword")).2)
    ∧ failure_reply.ephemeral = true :=
  C7_wrong_password_friendly (ok_ctx "wrongpassword") 1 cfg0 ⟨[role0]⟩ 42
    [(77, chan0)] (77, chan0) "wrongpassword" rfl rfl rfl rfl rfl (by decide)
    rfl (by decide) rfl

/-- C8: on a matching password the command first performs the role
grant and only then sends the success notice, whose description
references the resolved channel; both the success and the failure reply
are ephemeral. -/
theorem C8_grant_then_success_notice (ctx : ErstiCtx) (m : Nat)
    (config : OPhase) (guild : Guild) (role_id : Nat)
    (channels : List (Nat × Channel)) (c : Nat × Channel) (pw : String)
    (hm : ctx.author_member = some m)
    (hc : ctx.o_phase = some config)
    (hg : ctx.guild = some guild)
    (hrole : get_role_id guild.roles config = .ok role_id)
    (hch : ctx.channels_fetch = .ok channels)
    (hfind : channels.find? (fun p => p.2.name == config.channel_name) = some c)
    (hmodal : ctx.modal_result = .ok (some pw))
    (hmatch : password_matches pw config.password = true)
    (hadd : ctx.add_role_result = .ok ())
    (hsend : ctx.send_result = .ok ()) :
    ersti ctx = (.ok (), [.fetchChannels, .openModal, .addRole m role_id,
        .sendReply (success_reply c.1)])
    ∧ (success_reply c.1).ephemeral = true
    ∧ (success_reply c.1).description = "Wir sehen uns in <#" ++ toString c.1 ++ "> :)"
    ∧ failure_reply.ephemeral = true := by
  refine ⟨?_, rfl, rfl, rfl⟩
  simp [ersti, get_channel_id, hm, hc, hg, hrole, hch, hfind, hmodal, hmatch,
    hadd, hsend]

/-- Witness for C8: the exact configured password grants the role and
then sends the success notice for the resolved channel. -/
theorem C8_grant_then_success_notice_witness :
    ersti (ok_ctx "quack123")
        = (.ok (), [.fetchChannels, .openModal, .addRole 1 42,
            .sendReply (success_reply 77)])
    ∧ (success_reply 77).ephemeral = true
    ∧ (success_reply 77).description = "Wir sehen uns in <#" ++ toString 77 ++ "> :)"
    ∧ failure_reply.ephemeral = true :=
  C8_grant_then_success_notice (ok_ctx "quack123") 1 cfg0 ⟨[role0]⟩ 42
    [(77, chan0)] (77, chan0) "quack123" rfl rfl rfl rfl rfl (by decide) rfl
    (by decide) rfl rfl

/-- The scan panics when a fetch failure is reached before any matching
invite: every guild before the failing one fetched fine but held no
matching code. -/
lemma scan_guilds_error_before_match (code e : String)
    (pre rest : List (Except String (List Invite)))
    (hpre : ∀ g ∈ pre, ∃ invs, g = .ok invs ∧ find_invite invs code = none) :
    scan_guilds code (pre ++ .error e :: rest) = .panicked := by
  induction pre with
  | nil => simp [scan_guilds]
  | cons g pre ih =>
    obtain ⟨invs, rfl, hfind⟩ := hpre g (by simp)
    rw [List.cons_append]
    simp only [scan_guilds, hfind]
    exact ih fun g hg => hpre g (by simp [hg])

/-- The scan panics when every guild fetch succeeds but none of them
holds the configured code. -/
lemma scan_guilds_no_match (code : String)
    (guilds : List (Except String (List Invite)))
    (hall : ∀ g ∈ guilds, ∃ invs, g = .ok invs ∧ find_invite invs code = none) :
    scan_guilds code guilds = .panicked := by
  induction guilds with
  | nil => simp [scan_guilds]
  | cons g rest ih =>
    obtain ⟨invs, rfl, hfind⟩ := hall g (by simp)
    simp only [scan_guilds, hfind]
    exact ih fun g hg => hall g (by simp [hg])

/-- The scan never produces the `None` value: it either finds a use
count or panics. -/
lemma scan_guilds_ne_value_none (code : String)
    (guilds : List (Except String (List Invite))) :
    scan_guilds code guilds ≠ .value none := by
  induction guilds with
  | nil => simp [scan_guilds]
  | cons g rest ih =>
    match g with
    | .error e => simp [scan_guilds]
    | .ok invs =>
      simp only [scan_guilds]
      match h : find_invite invs code with
      | some invite => simp
      | none => exact ih

/-- C9 (counterexample): the claim says a failing invite fetch for any
guild of the snapshot makes the initializer panic.  The loop stops at
the first guild containing the invite, so with the invite found in the
first guild and the second guild's fetch failing, the initializer
returns the use count and does not panic. -/
theorem C9_counterexample :
    get_ophase_invite_count (some cfg0) [.ok [inv0], .error "network error"]
        = .value (some 5)
    ∧ get_ophase_invite_count (some cfg0) [.ok [inv0], .error "network error"]
        ≠ .panicked := by
  exact ⟨by decide, by decide⟩

/-- C9 (amended): during startup with the feature configured, the
initializer panics if a guild's invite fetch fails before the tracked
invite has been found, or if all fetches succeed and no guild holds the
configured code; it never returns `None` when configured, and returns
`None` exactly when the feature is not configured.  (Guilds after the
first match are not fetched, so their failures cannot panic.) -/
theorem C9_initializer_panic_conditions (cfg : OPhase) :
    (∀ pre rest e,
      (∀ g ∈ pre, ∃ invs, g = .ok invs ∧ find_invite invs cfg.invite_code = none) →
      get_ophase_invite_count (some cfg) (pre ++ .error e :: rest) = .panicked)
    ∧ (∀ guilds,
      (∀ g ∈ guilds, ∃ invs, g = .ok invs ∧ find_invite invs cfg.invite_code = none) →
      get_ophase_invite_count (some cfg) guilds = .panicked)
    ∧ (∀ guilds, get_ophase_invite_count none guilds = .value none)
    ∧ (∀ guilds, get_ophase_invite_count (some cfg) guilds ≠ .value none) := by
  refine ⟨?_, ?_, ?_, ?_⟩
  · intro pre rest e hpre
    exact scan_guilds_error_before_match cfg.invite_code e pre rest hpre
  · intro guilds hall
    exact scan_guilds_no_match cfg.invite_code guilds hall
  · intro guilds
    rfl
  · intro guilds
    exact scan_guilds_ne_value_none cfg.invite_code guilds

/-- Witness for C9: with one healthy guild holding only an unrelated
invite, a fetch failure in the second guild panics the initializer. -/
theorem C9_initializer_panic_conditions_witness :
    get_ophase_invite_count (some cfg0) ([.ok [other_invite]] ++ .error "boom" :: [])
        = .panicked :=
  (C9_initializer_panic_conditions cfg0).1 [.ok [other_invite]] [] "boom"
    (fun g hg => by
      simp only [List.mem_singleton] at hg
      exact ⟨[other_invite], hg, by decide⟩)

/-- A trace without counter swaps leaves the counter untouched. -/
lemma apply_effects_of_no_swap (counter : Option Nat) (effects : List Effect)
    (h : ∀ n, Effect.counterSwap n ∉ effects) :
    apply_effects counter effects = counter := by
  induction effects with
  | nil => rfl
  | cons eff rest ih =>
    have hrest : ∀ n, Effect.counterSwap n ∉ rest := by
      intro n hn
      exact h n (by simp [hn])
    have hhead : apply_effect counter eff = counter := by
      match eff with
      | .counterSwap n => exact absurd (by simp) (h n)
      | .fetchGuildInvites => rfl
      | .fetchPartialGuild => rfl
      | .fetchChannels => rfl
      | .openModal => rfl
      | .addRole a b => rfl
      | .sendReply r => rfl
    simp only [apply_effects, List.foldl_cons, hhead]
    exact ih hrest

/-- Every effect the channel lookup performs is the channel fetch. -/
lemma get_channel_id_effects (ctx : ErstiCtx) (config : OPhase) :
    ∀ eff ∈ (get_channel_id ctx config).2, eff = Effect.fetchChannels := by
  unfold get_channel_id
  repeat' split
  all_goals simp

/-- A trace made of channel fetches followed by a swap-free tail holds
no counter swap. -/
lemma not_swap_of_all_fetch (n : Nat) (effects tail : List Effect)
    (heff : ∀ eff ∈ effects, eff = Effect.fetchChannels)
    (htail : ∀ m, Effect.counterSwap m ∉ tail) :
    Effect.counterSwap n ∉ effects ++ tail := by
  intro hmem
  rcases List.mem_append.mp hmem with h | h
  · exact Effect.noConfusion (heff _ h)
  · exact htail n h

/-- C10: no execution of the `/ophase` command — whatever its inputs
and outcome — emits a counter swap, so the shared invite-use counter
reads the same before and after the command; a password-based grant
consumes no invite-use delta. -/
theorem C10_command_counter_frame (ctx : ErstiCtx) (counter : Option Nat) :
    (∀ n, Effect.counterSwap n ∉ (ersti ctx).2)
    ∧ apply_effects counter (ersti ctx).2 = counter := by
  have hno : ∀ n, Effect.counterSwap n ∉ (ersti ctx).2 := by
    intro n
    unfold ersti
    repeat' split
    all_goals try simp
    all_goals intro hmem
    all_goals exact absurd (get_channel_id_effects _ _ _ hmem) (by simp)
  exact ⟨hno, apply_effects_of_no_swap counter (ersti ctx).2 hno⟩

/-- Witness for C10: the concrete successful command run leaves an
initialized counter at its value. -/
theorem C10_command_counter_frame_witness :
    (∀ n, Effect.counterSwap n ∉ (ersti (ok_ctx "quack123")).2)
    ∧ apply_effects (some 5) (ersti (ok_ctx "quack123")).2 = some 5 :=
  C10_command_counter_frame (ok_ctx "quack123") (some 5)
